import Mathlib

/-!
Shallow embedding of the mailbox-synchronization and event-processing
pipeline of the Email-Management-System repository, together with proofs
checking the natural-language specification against the code.

Embedded source files:
- src/backend/services/EmailSyncService.ts   (normalizer, scheduler, pipeline)
- src/backend/services/ElasticsearchService.ts (index store boundary)
- src/backend/services/WebhookService.ts     (webhook retry loop)
- src/ai/AICategorizationService.ts          (classifier response parsing)

External collaborators (IMAP transport, Elasticsearch, OpenAI, Slack,
axios) are modelled at their boundary as explicit success and result
parameters, exactly where the TypeScript awaits them.
-/

namespace EmailMgmt

/-! ## AICategorizationService.parseAIResponse (src/ai/AICategorizationService.ts)

`parseAIResponse` first looks for a JSON object in the response via the
regex `\x7b[\s\S]*\x7d` (greedy: first opening brace to last closing brace)
and, when `JSON.parse` succeeds on it, returns the parsed fields with the
confidence clamped by `Math.min(100, Math.max(0, parsed.confidence || 0))`
and the category cast without validation.  When no JSON object can be
extracted or `JSON.parse` throws, it falls back to a case-insensitive
keyword search and a `(\d+)%` percent search over the raw text.
`JSON.parse` itself is a JavaScript builtin; it is taken as an explicit
function parameter `jp` returning the parsed object or `none` on throw. -/

/-- A JSON value as `JSON.parse` may deliver it in the `confidence` field:
a number, a string, a boolean, null, or a composite (array or object).
A composite is always truthy and `ToNumber` sends it through its string
conversion, carried here as `stringForm`.  JSON numbers are modelled as
integers; fractional values change nothing the claims are about. -/
inductive JsonValue where
  | num (n : Int)
  | str (s : String)
  | boolean (b : Bool)
  | null
  | composite (stringForm : String)
deriving Repr, DecidableEq

/-- A JavaScript number as `Math.min`/`Math.max` handle it: a number or
NaN (which both propagate). -/
inductive JSNum where
  | num (n : Int)
  | nan
deriving Repr, DecidableEq

/-- JavaScript truthiness of a JSON value (`undefined` is handled by the
surrounding `Option`): `false`, `0`, the empty string and `null` are
falsy; arrays and objects are always truthy. -/
def JsonValue.truthy : JsonValue → Bool
  | .num n => !(n == 0)
  | .str s => !(s == "")
  | .boolean b => b
  | .null => false
  | .composite _ => true

/-- JavaScript `ToNumber` on a JSON value.  The numeric-string grammar is
a JavaScript builtin, taken as the parameter `toNum` (returning `.nan`
where the string is not numeric); booleans coerce to 0/1, null to 0, and
composites coerce through their string form. -/
def JsonValue.toNumber (toNum : String → JSNum) : JsonValue → JSNum
  | .num n => .num n
  | .str s => toNum s
  | .boolean b => .num (if b then 1 else 0)
  | .null => .num 0
  | .composite s => toNum s

/-- `parsed.confidence || 0`: an absent or falsy confidence field is
replaced by the number 0; a truthy value is kept as is (the `ToNumber`
coercion happens later, inside `Math.max`). -/
def confidenceOrZero : Option JsonValue → JsonValue
  | some v => if v.truthy then v else .num 0
  | none => .num 0

/-- `Math.max(a, x)` with NaN propagation. -/
def jsMax (a : Int) : JSNum → JSNum
  | .num n => .num (max a n)
  | .nan => .nan

/-- `Math.min(a, x)` with NaN propagation. -/
def jsMin (a : Int) : JSNum → JSNum
  | .num n => .num (min a n)
  | .nan => .nan

/-- Result of `JSON.parse` on the extracted candidate: the three fields
`parseAIResponse` reads, each possibly `undefined`; the confidence field
may hold any JSON value, `JSON.parse` does not constrain it. -/
structure ParsedObj where
  category : Option String
  confidence : Option JsonValue
  reasoning : Option String
deriving Repr, DecidableEq

/-- The `AICategory` record produced by the categorization service.  The
TypeScript union type is erased at runtime and the JSON path casts without
checking, so the runtime category is an arbitrary string (or `undefined`
when the parsed object lacks the field), and the runtime confidence is a
JavaScript number which can be NaN when the response carried a
non-numeric confidence value. -/
structure AICategory where
  category : Option String
  confidence : JSNum
  reasoning : Option String
deriving Repr, DecidableEq

/-- Index of the first occurrence of `c` in `cs`. -/
def firstIdxOf (c : Char) (cs : List Char) : Option Nat :=
  cs.findIdx? (· == c)

/-- Index of the last occurrence of `c` in `cs`. -/
def lastIdxOf (c : Char) (cs : List Char) : Option Nat :=
  match cs.reverse.findIdx? (· == c) with
  | some k => some (cs.length - 1 - k)
  | none => none

/-- `content.match(/\x7b[\s\S]*\x7d/)`: the candidate JSON substring runs
from the first opening brace to the last closing brace, provided the
latter comes after the former; otherwise there is no match. -/
def extractJsonCandidate (content : String) : Option String :=
  let cs := content.toList
  match firstIdxOf '{' cs, lastIdxOf '}' cs with
  | some i, some j => if i < j then some (String.mk ((cs.drop i).take (j - i + 1))) else none
  | _, _ => none

/-- The five alternatives of the fallback category regex, in source order:
`/(Interested|Meeting Booked|Not Interested|Spam|Out of Office)/i`. -/
def categoryKeywords : List String :=
  ["Interested", "Meeting Booked", "Not Interested", "Spam", "Out of Office"]

/-- Case-insensitive check that `kw` is a prefix of `cs`. -/
def ciStartsWith : List Char → List Char → Bool
  | [], _ => true
  | _ :: _, [] => false
  | k :: ks, c :: cs => (k.toLower == c.toLower) && ciStartsWith ks cs

/-- Case-insensitive equality of two character lists. -/
def ciEqChars : List Char → List Char → Bool
  | [], [] => true
  | a :: as_, b :: bs => (a.toLower == b.toLower) && ciEqChars as_ bs
  | _, _ => false

/-- At the current position, the first keyword (in alternation order) that
matches case-insensitively, together with its length. -/
def keywordAt (cs : List Char) : Option Nat :=
  (categoryKeywords.find? (fun kw => ciStartsWith kw.toList cs)).map String.length

/-- Leftmost case-insensitive keyword match; the captured group keeps the
casing of the input, as `match[1]` does. -/
def matchCategoryAux : List Char → Option String
  | [] => none
  | c :: rest =>
    match keywordAt (c :: rest) with
    | some n => some (String.mk ((c :: rest).take n))
    | none => matchCategoryAux rest

/-- `content.match(/(Interested|Meeting Booked|Not Interested|Spam|Out of Office)/i)`,
returning the captured text. -/
def matchCategory (content : String) : Option String :=
  matchCategoryAux content.toList

/-- `parseInt` on a string of decimal digits. -/
def digitsToNat (cs : List Char) : Nat :=
  cs.foldl (fun acc c => acc * 10 + (c.toNat - 48)) 0

/-- Leftmost match of `/(\d+)%/`: a maximal digit run immediately followed
by a percent sign; the captured digits, parsed. -/
def matchPercentAux : List Char → Option Nat
  | [] => none
  | c :: rest =>
    if c.isDigit then
      let run := (c :: rest).takeWhile Char.isDigit
      match (c :: rest).drop run.length with
      | '%' :: _ => some (digitsToNat run)
      | _ => matchPercentAux rest
    else matchPercentAux rest

/-- `content.match(/(\d+)%/)`, returning the captured number. -/
def matchPercent (content : String) : Option Nat :=
  matchPercentAux content.toList

/-- `AICategorizationService.parseAIResponse`.  `jp` models `JSON.parse`
(returning `none` where the builtin throws, in which case the catch block
falls through to the fallback path) and `toNum` the builtin numeric-string
coercion used by `ToNumber`.  The JSON-path confidence is
`Math.min(100, Math.max(0, parsed.confidence || 0))`: the falsy check
first, then the `ToNumber` coercion inside `Math.max`, with NaN
propagating through both extrema. -/
def parseAIResponse (jp : String → Option ParsedObj) (toNum : String → JSNum)
    (content : String) : AICategory :=
  match (extractJsonCandidate content).bind jp with
  | some parsed =>
    { category := parsed.category
      confidence :=
        jsMin 100 (jsMax 0 ((confidenceOrZero parsed.confidence).toNumber toNum))
      reasoning := parsed.reasoning }
  | none =>
    { category := some ((matchCategory content).getD "Not Interested")
      confidence :=
        match matchPercent content with
        | some n => .num (n : Int)
        | none => .num 50
      reasoning := some "Fallback categorization due to parsing error" }

/-- `AICategorizationService.categorizeEmail`, at the boundary of the
OpenAI call: `engineContent` is the response text (`none` when the service
is unavailable is handled separately, and `none` here models a thrown API
call or an empty `content`, both of which the catch block turns into
`null`).  A returned response string, however malformed, is handed to
`parseAIResponse` and always yields a category. -/
def categorizeEmail (available : Bool) (engineContent : Option String)
    (jp : String → Option ParsedObj) (toNum : String → JSNum) : Option AICategory :=
  if available then
    match engineContent with
    | some content => some (parseAIResponse jp toNum content)
    | none => none
  else none

/-! ## EmailSyncService.parseEmailMessage (the Message Normalizer) -/

/-- The header object imap-simple delivers for a `HEADER` part: each field
is an array of strings, or absent (`undefined`). -/
structure HeaderObj where
  hFrom : Option (List String)
  hTo : Option (List String)
  hCc : Option (List String)
  hBcc : Option (List String)
  hSubject : Option (List String)
  hDate : Option (List String)
deriving Repr, DecidableEq

/-- The body of a fetched part: a parsed header object for `HEADER` parts,
a raw string for `TEXT` parts. -/
inductive PartBody where
  | headerObj (h : HeaderObj)
  | textStr (s : String)
deriving Repr, DecidableEq

/-- One element of `message.parts`. -/
structure RawPart where
  which : String
  body : PartBody
deriving Repr, DecidableEq

/-- A raw fetch record as consumed by `parseEmailMessage`. -/
structure RawMessage where
  parts : List RawPart
  uid : Nat
  flags : List String
  htmlBody : Option String
deriving Repr, DecidableEq

/-- Header object with every field absent. -/
def emptyHeaderObj : HeaderObj := ⟨none, none, none, none, none, none⟩

/-- Reading header fields off a part body; property access on a non-object
value yields `undefined` for every field in JavaScript. -/
def PartBody.asHeaders : PartBody → HeaderObj
  | .headerObj h => h
  | .textStr _ => emptyHeaderObj

/-- Reading the text body off a part body; imap-simple delivers string
bodies for `TEXT` parts. -/
def PartBody.asText : PartBody → String
  | .textStr s => s
  | .headerObj _ => ""

/-- The canonical `EmailMessage` entity (src/types).  `from` is a Lean
keyword and `to` a reserved token, so those fields are named `fromAddr`
and `toAddrs`. -/
structure EmailMessage where
  id : String
  uid : Nat
  accountId : String
  folder : String
  fromAddr : String
  toAddrs : List String
  cc : List String
  bcc : List String
  subject : String
  body : String
  htmlBody : Option String
  date : Int
  flags : List String
  attachments : List String
  aiCategory : Option AICategory
deriving Repr, DecidableEq

/-- `headers.field?.[0] || ''`: first element of the array if the field is
present and nonempty, else the empty string (an empty first element is
falsy and also yields `''`, which coincides with `getD`). -/
def firstOrEmpty (x : Option (List String)) : String :=
  (x.bind List.head?).getD ""

/-- `new Date(headers.date?.[0] || Date.now())`: the date string is parsed
when present and truthy; an absent or empty date header falls back to the
current wall-clock time.  `parseDate` models the `Date` string parser,
`now` the value of `Date.now()` at the moment of the call. -/
def dateOrNow (parseDate : String → Int) (now : Int) (x : Option (List String)) : Int :=
  match x.bind List.head? with
  | some s => if s = "" then now else parseDate s
  | none => now

/-- `EmailSyncService.parseEmailMessage`: returns `none` (the skip result)
when the `HEADER` or `TEXT` part is missing, otherwise builds the Message
with optional fields defaulted.  Total besides; the surrounding try/catch
never fires on well-typed part lists. -/
def parseEmailMessage (parseDate : String → Int) (now : Int) (message : RawMessage)
    (accountId folder : String) : Option EmailMessage :=
  match message.parts.find? (fun p => p.which == "HEADER"),
        message.parts.find? (fun p => p.which == "TEXT") with
  | some header, some textPart =>
    let headers := header.body.asHeaders
    let body := textPart.body.asText
    some
      { id := accountId ++ "_" ++ toString message.uid
        uid := message.uid
        accountId := accountId
        folder := folder
        fromAddr := firstOrEmpty headers.hFrom
        toAddrs := headers.hTo.getD []
        cc := headers.hCc.getD []
        bcc := headers.hBcc.getD []
        subject := firstOrEmpty headers.hSubject
        body := body
        htmlBody := message.htmlBody
        date := dateOrNow parseDate now headers.hDate
        flags := message.flags
        attachments := []
        aiCategory := none }
  | _, _ => none

/-- The per-folder message loop of `performInitialSync` and
`checkForNewEmails`: each raw record is normalized, records whose
normalization returns the skip result are dropped, every produced Message
is handed to the pipeline in fetch order. -/
def processFolderMessages (parseDate : String → Int) (now : Int)
    (accountId folder : String) (msgs : List RawMessage) : List EmailMessage :=
  msgs.filterMap (fun m => parseEmailMessage parseDate now m accountId folder)

/-! ## EmailSyncService.processNewEmail (the Processing Pipeline)

The whole stage sequence sits inside one `try { ... } catch`.  The stages
that can throw into that catch are `elasticsearchService.indexEmail`
(which rethrows its client errors) and `elasticsearchService.updateEmailAI`
(likewise).  `aiCategorizationService.categorizeEmail`,
`slackNotificationService.sendInterestedEmailNotification` and
`webhookService.sendWebhook` each catch internally and never throw.
The environment records the outcome of each external call. -/

/-- Outcomes of the external calls the pipeline makes for one Message. -/
structure PipelineEnv where
  /-- `indexEmail` resolves (`false`: it throws into the pipeline catch). -/
  indexOk : Bool
  /-- value returned by `categorizeEmail` (never throws). -/
  classifyResult : Option AICategory
  /-- `updateEmailAI` resolves (`false`: it throws into the pipeline catch). -/
  updateOk : Bool
  /-- the Slack notification's own delivery succeeds (its failure is caught
  inside `sendInterestedEmailNotification`). -/
  slackOk : Bool
  /-- the webhook delivery eventually succeeds (its failure is caught
  inside `sendWebhook`). -/
  webhookOk : Bool
deriving Repr, DecidableEq

/-- Which stages of one `processNewEmail` run were reached, and the
Message's classification when the run ended. -/
structure PipelineTrace where
  indexAttempted : Bool
  classifyAttempted : Bool
  updateAttempted : Bool
  slackAttempted : Bool
  slackDelivered : Bool
  webhookAttempted : Bool
  broadcastDone : Bool
  finalCategory : Option AICategory
  errorCaught : Bool
deriving Repr, DecidableEq

/-- `aiCategory?.category === 'Interested'`. -/
def isInterested : Option AICategory → Bool
  | some c => c.category == some "Interested"
  | none => false

/-- `EmailSyncService.processNewEmail`: index, classify (attach and
propagate on success), conditionally notify, broadcast — all inside a
single try/catch, so a throw from `indexEmail` or `updateEmailAI` skips
every remaining stage. -/
def processNewEmail (env : PipelineEnv) (email : EmailMessage) : PipelineTrace :=
  if !env.indexOk then
    { indexAttempted := true, classifyAttempted := false, updateAttempted := false
      slackAttempted := false, slackDelivered := false, webhookAttempted := false
      broadcastDone := false, finalCategory := email.aiCategory, errorCaught := true }
  else
    let aiCategory := env.classifyResult
    let emailCat := match aiCategory with
      | some c => some c
      | none => email.aiCategory
    if aiCategory.isSome && !env.updateOk then
      { indexAttempted := true, classifyAttempted := true, updateAttempted := true
        slackAttempted := false, slackDelivered := false, webhookAttempted := false
        broadcastDone := false, finalCategory := emailCat, errorCaught := true }
    else
      let notify := isInterested aiCategory
      { indexAttempted := true, classifyAttempted := true
        updateAttempted := aiCategory.isSome
        slackAttempted := notify, slackDelivered := notify && env.slackOk
        webhookAttempted := notify, broadcastDone := true
        finalCategory := emailCat, errorCaught := false }

/-! ## EmailSyncService scheduler: backfill and polling

`start` runs `startAccountSync` once per account; `startAccountSync`
awaits `performInitialSync` (connect, then the 30-day backfill over every
folder) and only then calls `setupRealtimeSync`, the sole installer of the
poll interval — a connect failure rethrown by `performInitialSync` is
caught in `startAccountSync` after skipping the installation, so such an
account never receives poll ticks.  Each tick of an installed timer runs
`checkForNewEmails`, which — when the account has no connection in the
`connections` map — would call `startAccountSync` again; a connection
enters the map (before the folder loop) exactly when
`createIMAPConnection` resolves, and is removed only by `stop`. -/

/-- Per-account scheduler state: whether the `connections` map holds a
connection for the account, whether `setupRealtimeSync` has installed the
poll interval, plus instrumentation counting executions of the
`performInitialSync` folder loop (total, and those that happened inside a
`checkForNewEmails` poll tick). -/
structure SyncState where
  hasConnection : Bool
  timerInstalled : Bool
  backfillRuns : Nat
  backfillRunsAtPoll : Nat
deriving Repr, DecidableEq

/-- `EmailSyncService.performInitialSync`: when the IMAP connect resolves,
the connection is stored and the backfill folder loop runs (folder errors
are caught per folder and cannot abort it); when the connect throws,
nothing is stored and the error is rethrown to the caller. -/
def performInitialSync (connectOk : Bool) (s : SyncState) : SyncState :=
  if connectOk then
    { s with hasConnection := true, backfillRuns := s.backfillRuns + 1 }
  else s

/-- `EmailSyncService.startAccountSync`: awaits the initial sync and only
on its success reaches `setupRealtimeSync`, which installs the poll
interval (and adds no backfill itself); the surrounding catch swallows a
rethrown connect failure after the installation has been skipped. -/
def startAccountSync (connectOk : Bool) (s : SyncState) : SyncState :=
  let s' := performInitialSync connectOk s
  if connectOk then { s' with timerInstalled := true } else s'

/-- `EmailSyncService.checkForNewEmails` (one poll tick): with a live
connection it fetches `UNSEEN` per folder (no backfill); with no
connection for the account it calls `startAccountSync` again. -/
def checkForNewEmails (connectOk : Bool) (s : SyncState) : SyncState :=
  if s.hasConnection then s
  else
    let s' := startAccountSync connectOk s
    { s' with backfillRunsAtPoll := s'.backfillRunsAtPoll + (if connectOk then 1 else 0) }

/-- The externally triggered scheduler events for one account: the single
`start` call, then poll timer ticks; each carries whether an IMAP connect
attempted during it would resolve. -/
inductive SyncEvent where
  | start (connectOk : Bool)
  | poll (connectOk : Bool)
deriving Repr, DecidableEq

/-- One scheduler event.  A poll event has an effect only where
`setupRealtimeSync` has installed the interval; for an account without
one, no timer exists to fire, so the event is a no-op. -/
def stepSync (s : SyncState) : SyncEvent → SyncState
  | .start ok => startAccountSync ok s
  | .poll ok => if s.timerInstalled then checkForNewEmails ok s else s

/-- State before `start`. -/
def initialSyncState : SyncState :=
  { hasConnection := false, timerInstalled := false
    backfillRuns := 0, backfillRunsAtPoll := 0 }

/-- Run a sequence of scheduler events for one account. -/
def runSync (events : List SyncEvent) : SyncState :=
  events.foldl stepSync initialSyncState

/-! ## performInitialSync backfill criteria -/

/-- An IMAP search criteria as built by the sync service. -/
inductive SearchCriteria where
  | since (day : Int)
  | unseen
deriving Repr, DecidableEq

/-- Whether a message with the given date (and seen flag) satisfies a
criteria: `SINCE d` selects every message dated on or after `d`, with no
upper bound; `UNSEEN` selects unseen messages. -/
def SearchCriteria.matches : SearchCriteria → Int → Bool → Bool
  | .since d, date, _ => decide (d ≤ date)
  | .unseen, _, seen => !seen

/-- The criteria `performInitialSync` sends for each configured folder:
`['SINCE', thirtyDaysAgo]` with `thirtyDaysAgo` computed by
`setDate(getDate() - 30)` from the current time (dates modelled at day
granularity). -/
def performInitialSyncCriteria (folders : List String) (nowDay : Int) :
    List (String × SearchCriteria) :=
  folders.map (fun f => (f, SearchCriteria.since (nowDay - 30)))

/-! ## WebhookService (src/backend/services/WebhookService.ts)

`sendWithRetry` loops `attempt = 1 .. retries`, posting once per
iteration; on failure it sleeps `Math.pow(2, attempt) * 1000` milliseconds
when further attempts remain, and after the last failure it throws the
last error.  `sendWebhook` skips everything when no URL is configured and
otherwise catches whatever `sendWithRetry` throws, so it never throws
itself.  `outcome a` tells whether the HTTP post of attempt `a` resolves. -/

/-- Observable behaviour of one `sendWithRetry`/`sendWebhook` run: the
attempt that succeeded (if any), how many posts were made, and the
backoff waits performed, in order, in milliseconds. -/
structure RetryTrace where
  successAt : Option Nat
  attempts : Nat
  delaysMs : List Nat
deriving Repr, DecidableEq

/-- The `for (let attempt = 1; attempt <= this.retries; attempt++)` loop
of `sendWithRetry`, started at `attempt` with `fuel` iterations left to
run (`fuel = retries + 1 - attempt` throughout; the recursion is on the
loop's remaining iteration count, so it is structural). -/
def retryLoop (outcome : Nat → Bool) (retries : Nat) : Nat → Nat → RetryTrace
  | _, 0 => { successAt := none, attempts := 0, delaysMs := [] }
  | attempt, fuel + 1 =>
    if outcome attempt then
      { successAt := some attempt, attempts := 1, delaysMs := [] }
    else
      let rest := retryLoop outcome retries (attempt + 1) fuel
      { successAt := rest.successAt
        attempts := rest.attempts + 1
        delaysMs := (if attempt < retries then [2 ^ attempt * 1000] else []) ++ rest.delaysMs }

/-- `WebhookService.sendWithRetry`; it throws exactly when no attempt
succeeded (`successAt = none`, covering `lastError` and the final
`new Error` for `retries = 0`). -/
def sendWithRetry (retries : Nat) (outcome : Nat → Bool) : RetryTrace :=
  retryLoop outcome retries 1 retries

/-- `WebhookService.sendWebhook`: no URL means no attempt at all;
otherwise the retry loop runs and any error it throws is caught and
logged, so the function always returns normally — its total Lean type has
no error component. -/
def sendWebhook (urlConfigured : Bool) (retries : Nat) (outcome : Nat → Bool) : RetryTrace :=
  if urlConfigured then sendWithRetry retries outcome
  else { successAt := none, attempts := 0, delaysMs := [] }

/-! ## Auxiliary definitions for stating the properties -/

/-- A Message with its `date` field zeroed, to compare normalizer outputs
up to the date field. -/
def stripDate (m : EmailMessage) : EmailMessage :=
  { m with date := 0 }

/-- Whether a raw record carries a date header whose first element is a
nonempty string, i.e. whether `headers.date?.[0]` is truthy so that
`parseEmailMessage` never consults `Date.now()`. -/
def hasConcreteDate (message : RawMessage) : Bool :=
  match message.parts.find? (fun p => p.which == "HEADER") with
  | some header =>
    match header.body.asHeaders.hDate.bind List.head? with
    | some s => !(s == "")
    | none => false
  | none => false

/-- A concrete Message used to drive the pipeline in counterexamples and
witnesses. -/
def sampleEmail : EmailMessage :=
  { id := "acct_1", uid := 1, accountId := "acct", folder := "INBOX"
    fromAddr := "alice@example.com", toAddrs := ["bob@example.com"]
    cc := [], bcc := [], subject := "hello", body := "hi there"
    htmlBody := none, date := 0, flags := [], attachments := [], aiCategory := none }

/-- A Classification carrying the actionable label. -/
def interestedCat : AICategory :=
  { category := some ("Interested"), confidence := .num 95, reasoning := none }

/-- A raw record whose header block lacks a date field. -/
def noDateMsg : RawMessage :=
  { parts :=
      [ { which := "HEADER"
          body := .headerObj
            { hFrom := some (["alice@example.com"]), hTo := none, hCc := none
              hBcc := none, hSubject := some (["hi"]), hDate := none } }
      , { which := "TEXT", body := .textStr "body text" } ]
    uid := 7, flags := [], htmlBody := none }

/-- A raw record with a nonempty date header. -/
def datedMsg : RawMessage :=
  { parts :=
      [ { which := "HEADER"
          body := .headerObj
            { hFrom := some (["alice@example.com"]), hTo := none, hCc := none
              hBcc := none, hSubject := some (["hi"]), hDate := some (["Mon, 1 Jan 2024"]) } }
      , { which := "TEXT", body := .textStr "body text" } ]
    uid := 8, flags := [], htmlBody := none }

/-- A raw record missing the required `HEADER` part. -/
def headerlessMsg : RawMessage :=
  { parts := [ { which := "TEXT", body := .textStr "orphan body" } ]
    uid := 9, flags := [], htmlBody := none }

/-- A raw record whose header block lacks the optional subject field. -/
def noSubjectMsg : RawMessage :=
  { parts :=
      [ { which := "HEADER"
          body := .headerObj
            { hFrom := some (["carol@example.com"]), hTo := none, hCc := none
              hBcc := none, hSubject := none, hDate := some (["Tue, 2 Jan 2024"]) } }
      , { which := "TEXT", body := .textStr "second body" } ]
    uid := 10, flags := [], htmlBody := none }

/-- The header part of `noSubjectMsg`, as `find?` returns it. -/
def noSubjectHeaderPart : RawPart :=
  { which := "HEADER"
    body := .headerObj
      { hFrom := some (["carol@example.com"]), hTo := none, hCc := none
        hBcc := none, hSubject := none, hDate := some (["Tue, 2 Jan 2024"]) } }

/-- The text part of `noSubjectMsg`, as `find?` returns it. -/
def noSubjectTextPart : RawPart :=
  { which := "TEXT", body := .textStr "second body" }

/-- The Message `parseEmailMessage` produces from `noSubjectMsg` (with the
constant date parser used in the witnesses). -/
def parsedNoSubject : EmailMessage :=
  { id := "acct_10", uid := 10, accountId := "acct", folder := "INBOX"
    fromAddr := "carol@example.com", toAddrs := [], cc := [], bcc := []
    subject := "", body := "second body", htmlBody := none, date := 0
    flags := [], attachments := [], aiCategory := none }

/-- An engine response that is a JSON object with an out-of-set label. -/
def bananaContent : String :=
  "\x7b\"category\": \"Banana\", \"confidence\": 50\x7d"

/-- `JSON.parse` on `bananaContent` (it succeeds there and is never
consulted elsewhere in the counterexample). -/
def jpBanana : String → Option ParsedObj := fun s =>
  if s = bananaContent then
    some { category := some ("Banana"), confidence := some (.num 50), reasoning := none }
  else none

/-- `JSON.parse` returning an over-range numeric confidence, as the engine
is free to produce. -/
def jpHigh : String → Option ParsedObj := fun _ =>
  some { category := some ("Interested"), confidence := some (.num 150), reasoning := none }

/-- An engine response that is a JSON object whose confidence is a
non-numeric string. -/
def vhContent : String :=
  "\x7b\"category\": \"Interested\", \"confidence\": \"very high\"\x7d"

/-- `JSON.parse` on `vhContent` (it succeeds there and is never consulted
elsewhere in the counterexample). -/
def jpVeryHigh : String → Option ParsedObj := fun s =>
  if s = vhContent then
    some { category := some ("Interested"), confidence := some (.str "very high")
           reasoning := none }
  else none

/-- The numeric-string coercion at the strings the counterexamples reach:
`ToNumber` of the non-numeric string `very high` is NaN. -/
def toNumVeryHigh : String → JSNum := fun s =>
  if s = "very high" then .nan else .num 0

/-! ## Claim C1: stage failure isolation in the pipeline -/

/-- C1 (counterexample): the claim says a Message whose Index stage fails
is still attempted for Classify and Broadcast.  In
`EmailSyncService.processNewEmail` all stages sit in one try/catch, so
when `indexEmail` throws, the catch fires and neither Classify nor
Broadcast is attempted for that Message. -/
theorem C1_counterexample :
    (processNewEmail
        { indexOk := false, classifyResult := none, updateOk := true
          slackOk := true, webhookOk := true } sampleEmail).indexAttempted = true ∧
    (processNewEmail
        { indexOk := false, classifyResult := none, updateOk := true
          slackOk := true, webhookOk := true } sampleEmail).errorCaught = true ∧
    (processNewEmail
        { indexOk := false, classifyResult := none, updateOk := true
          slackOk := true, webhookOk := true } sampleEmail).classifyAttempted = false ∧
    (processNewEmail
        { indexOk := false, classifyResult := none, updateOk := true
          slackOk := true, webhookOk := true } sampleEmail).broadcastDone = false := by
  decide

/-- C1 (amended): every stage failure is caught and logged by the single
pipeline-level handler, so the pipeline itself never propagates an error;
but the handler aborts every remaining stage: Classify runs exactly when
Index succeeded, and Broadcast runs exactly when Index succeeded and the
classification-update propagation (when a Classification was produced)
also succeeded.  Failures that a stage catches internally — the
classification engine, the Slack channel, the webhook delivery — do not
abort later stages. -/
theorem C1_amended_single_catch (env : PipelineEnv) (email : EmailMessage) :
    (processNewEmail env email).indexAttempted = true ∧
    (processNewEmail env email).classifyAttempted = env.indexOk ∧
    (processNewEmail env email).broadcastDone
      = (env.indexOk && (!env.classifyResult.isSome || env.updateOk)) ∧
    (processNewEmail env email).errorCaught
      = (!env.indexOk || (env.classifyResult.isSome && !env.updateOk)) := by
  obtain ⟨i, c, u, sl, w⟩ := env
  cases i <;> cases u <;> cases c <;>
    simp [processNewEmail, isInterested]

/-! ## Claim C2: conditional notification -/

/-- C2 (counterexample): the claim says a Notification Event is dispatched
if and only if the Message's Classification label is `Interested`.  When
`updateEmailAI` throws after an `Interested` Classification has been
attached to the Message, the pipeline catch fires before the notify stage:
the label is `Interested`, yet neither Slack nor webhook is attempted. -/
theorem C2_counterexample :
    isInterested (some interestedCat) = true ∧
    (processNewEmail
        { indexOk := true, classifyResult := some interestedCat, updateOk := false
          slackOk := true, webhookOk := true } sampleEmail).finalCategory
      = some interestedCat ∧
    (processNewEmail
        { indexOk := true, classifyResult := some interestedCat, updateOk := false
          slackOk := true, webhookOk := true } sampleEmail).slackAttempted = false ∧
    (processNewEmail
        { indexOk := true, classifyResult := some interestedCat, updateOk := false
          slackOk := true, webhookOk := true } sampleEmail).webhookAttempted = false := by
  decide

/-- C2 (amended): both notification channels are attempted exactly when
Index succeeded, the classification-update propagation succeeded, and the
produced Classification's label is `Interested`; the webhook attempt never
depends on the Slack channel's internal success (Slack failures are caught
inside `sendInterestedEmailNotification`). -/
theorem C2_amended_notify_condition (env : PipelineEnv) (email : EmailMessage) :
    (processNewEmail env email).slackAttempted
      = (env.indexOk && env.updateOk && isInterested env.classifyResult) ∧
    (processNewEmail env email).webhookAttempted
      = (env.indexOk && env.updateOk && isInterested env.classifyResult) ∧
    (processNewEmail { env with slackOk := false } email).webhookAttempted
      = (processNewEmail { env with slackOk := true } email).webhookAttempted := by
  obtain ⟨i, c, u, sl, w⟩ := env
  cases i <;> cases u <;> cases c <;>
    simp [processNewEmail, isInterested]

/-! ## Claim C3: classification failure is never fatal -/

/-- C3 (counterexample): the claim says that on a malformed engine
response the Message is left unclassified.  A malformed response does not
fail the Classify stage at all: `parseAIResponse` falls back to a definite
`Not Interested`/50 Classification, which is attached to the Message. -/
theorem C3_counterexample :
    categorizeEmail true (some ("This email defies analysis.")) (fun _ => none)
        (fun _ => JSNum.num 0)
      = some
        { category := some ("Not Interested"), confidence := .num 50
          reasoning := some ("Fallback categorization due to parsing error") } ∧
    (processNewEmail
        { indexOk := true
          classifyResult := categorizeEmail true (some ("This email defies analysis."))
            (fun _ => none) (fun _ => JSNum.num 0)
          updateOk := true, slackOk := true, webhookOk := true } sampleEmail).finalCategory
      ≠ none := by
  decide

/-- C3 (amended): the Classify stage fails — leaving the Message
unclassified — exactly when the engine is unavailable or the API call
fails to deliver a response text; in that case no Classification is
attached, no index update is attempted, and Broadcast still runs whenever
Index succeeded.  A malformed response is not a failure: any delivered
response text yields a Classification via `parseAIResponse`, which is
attached to the Message. -/
theorem C3_amended_classify_failure :
    (∀ (resp : Option String) (jp : String → Option ParsedObj) (toNum : String → JSNum),
      categorizeEmail false resp jp toNum = none) ∧
    (∀ (jp : String → Option ParsedObj) (toNum : String → JSNum),
      categorizeEmail true none jp toNum = none) ∧
    (∀ (content : String) (jp : String → Option ParsedObj) (toNum : String → JSNum),
      categorizeEmail true (some content) jp toNum
        = some (parseAIResponse jp toNum content)) ∧
    (∀ (env : PipelineEnv) (email : EmailMessage), env.classifyResult = none →
      (processNewEmail env email).updateAttempted = false ∧
      (processNewEmail env email).finalCategory = email.aiCategory ∧
      (processNewEmail env email).broadcastDone = env.indexOk) := by
  refine ⟨fun resp jp toNum => rfl, fun jp toNum => rfl, fun content jp toNum => rfl, ?_⟩
  rintro ⟨i, c, u, sl, w⟩ email h
  cases h
  cases i <;> simp [processNewEmail, isInterested]

/-- C3 (witness): an unavailable engine leaves the sample Message
unclassified and the pipeline still broadcasts it. -/
theorem C3_amended_classify_failure_witness :
    (processNewEmail
        { indexOk := true, classifyResult := none, updateOk := true
          slackOk := true, webhookOk := true } sampleEmail).finalCategory = none ∧
    (processNewEmail
        { indexOk := true, classifyResult := none, updateOk := true
          slackOk := true, webhookOk := true } sampleEmail).broadcastDone = true := by
  have h := C3_amended_classify_failure.2.2.2
    { indexOk := true, classifyResult := none, updateOk := true
      slackOk := true, webhookOk := true } sampleEmail rfl
  exact ⟨h.2.1, h.2.2⟩

/-! ## Claim C4: backfill runs once, on entering service -/

/-- Poll events leave the state untouched once the account is past its
`start`: either no timer was installed (a failed connect at start, so no
tick ever fires), or the timer exists together with the stored connection,
and `checkForNewEmails` finds the connection and only fetches `UNSEEN` —
its no-connection reconnect branch is unreachable. -/
theorem pollFold_steady (oks : List Bool) (s : SyncState)
    (h : s.timerInstalled = false ∨ s.hasConnection = true) :
    (oks.map SyncEvent.poll).foldl stepSync s = s := by
  induction oks with
  | nil => rfl
  | cons ok rest ih =>
    have hstep : stepSync s (SyncEvent.poll ok) = s := by
      rcases h with h | h
      · simp [stepSync, h]
      · simp [stepSync, checkForNewEmails, h]
    simp only [List.map_cons, List.foldl_cons, hstep]
    exact ih

/-- C4: for the scheduler's event shape — one `start`, then the ticks of
whatever poll timer exists — the backfill folder loop executes exactly
once when the connect at `start` resolves and never otherwise, always at
the `start` event and never inside a poll tick: `setupRealtimeSync`
installs the poll interval only after `performInitialSync` has succeeded
(a connect failure is rethrown past the installation), so an account
whose start failed receives no ticks, and an account whose start
succeeded keeps its stored connection, making `checkForNewEmails`'
re-sync branch unreachable. -/
theorem C4_backfill_once (ok0 : Bool) (oks : List Bool) :
    (runSync (SyncEvent.start ok0 :: oks.map SyncEvent.poll)).backfillRuns
      = (if ok0 then 1 else 0) ∧
    (runSync (SyncEvent.start ok0 :: oks.map SyncEvent.poll)).backfillRunsAtPoll = 0 := by
  unfold runSync
  simp only [List.foldl_cons]
  cases ok0 with
  | true =>
    have h1 : stepSync initialSyncState (SyncEvent.start true) =
        { hasConnection := true, timerInstalled := true
          backfillRuns := 1, backfillRunsAtPoll := 0 } := rfl
    rw [h1, pollFold_steady _ _ (Or.inr rfl)]
    exact ⟨rfl, rfl⟩
  | false =>
    have h1 : stepSync initialSyncState (SyncEvent.start false) = initialSyncState := rfl
    rw [h1, pollFold_steady _ _ (Or.inl rfl)]
    exact ⟨rfl, rfl⟩

/-! ## Claim C5: the backfill window -/

/-- C5 (counterexample): the claim says the backfill criteria cover
exactly the inclusive range from thirty days before now to now.  The
criteria `['SINCE', thirtyDaysAgo]` impose only the lower bound: taking
now as day 0, a message dated on day 1 — after now — still matches the
criteria sent for the INBOX folder, so the covered set is not that
range. -/
theorem C5_counterexample :
    ("INBOX", SearchCriteria.since ((0 : Int) - 30))
      ∈ performInitialSyncCriteria ["INBOX"] 0 ∧
    (SearchCriteria.since ((0 : Int) - 30)).matches 1 false = true ∧
    ¬((0 : Int) - 30 ≤ 1 ∧ (1 : Int) ≤ 0) := by
  refine ⟨?_, by decide, by decide⟩
  simp [performInitialSyncCriteria]

/-- C5 (amended): for every configured folder the backfill criteria match
a message exactly when it is dated on or after thirty days before now —
a lower bound with no upper bound; restricted to messages dated no later
than now (all messages that exist when the backfill runs), the criteria
cover exactly the inclusive range from thirty days before now to now. -/
theorem C5_amended_window (folders : List String) (nowDay : Int)
    (f : String) (c : SearchCriteria)
    (hc : (f, c) ∈ performInitialSyncCriteria folders nowDay) :
    (∀ (d : Int) (seen : Bool), c.matches d seen = true ↔ nowDay - 30 ≤ d) ∧
    (∀ (d : Int) (seen : Bool), d ≤ nowDay →
      (c.matches d seen = true ↔ (nowDay - 30 ≤ d ∧ d ≤ nowDay))) := by
  obtain ⟨a, ha, hEq⟩ := List.mem_map.mp hc
  obtain ⟨rfl, rfl⟩ := Prod.mk.injEq .. ▸ hEq
  constructor
  · intro d seen
    simp [SearchCriteria.matches]
  · intro d seen hd
    simp [SearchCriteria.matches, hd]

/-- C5 (witness): with now at day 0, day -30 is matched and day -31 is
not. -/
theorem C5_amended_window_witness :
    (SearchCriteria.since ((0 : Int) - 30)).matches (-30) false = true ∧
    ¬((SearchCriteria.since ((0 : Int) - 30)).matches (-31) false = true) := by
  have h := C5_amended_window ["INBOX"] 0 "INBOX"
    (SearchCriteria.since ((0 : Int) - 30)) (by simp [performInitialSyncCriteria])
  constructor
  · exact (h.1 (-30) false).mpr (by norm_num)
  · intro hcon
    have := (h.1 (-31) false).mp hcon
    norm_num at this

/-! ## Claim C6: determinism of the Message Normalizer -/

/-- C6 (counterexample): the claim says two invocations on the same input
yield the same Message, field for field.  For a record without a date
header, `parseEmailMessage` falls back to `Date.now()`, so two invocations
at different wall-clock instants produce Messages that differ in the date
field. -/
theorem C6_counterexample :
    parseEmailMessage (fun _ => 0) 0 noDateMsg "acct" "INBOX"
      ≠ parseEmailMessage (fun _ => 0) 1 noDateMsg "acct" "INBOX" := by
  decide

/-- C6 (amended): the Normalizer is deterministic in every field except
the date — two invocations on the same input agree after zeroing the date
— and fully deterministic on every record whose date header is present and
nonempty, where `Date.now()` is never consulted. -/
theorem C6_amended_determinism :
    (∀ (parseDate : String → Int) (n1 n2 : Int) (message : RawMessage)
        (accountId folder : String),
      (parseEmailMessage parseDate n1 message accountId folder).map stripDate
        = (parseEmailMessage parseDate n2 message accountId folder).map stripDate) ∧
    (∀ (parseDate : String → Int) (n1 n2 : Int) (message : RawMessage)
        (accountId folder : String),
      hasConcreteDate message = true →
      parseEmailMessage parseDate n1 message accountId folder
        = parseEmailMessage parseDate n2 message accountId folder) := by
  constructor
  · intro parseDate n1 n2 message accountId folder
    cases h1 : message.parts.find? (fun p => p.which == "HEADER") with
    | none => simp [parseEmailMessage, h1]
    | some header =>
      cases h2 : message.parts.find? (fun p => p.which == "TEXT") with
      | none => simp [parseEmailMessage, h1, h2]
      | some textPart => simp [parseEmailMessage, h1, h2, stripDate]
  · intro parseDate n1 n2 message accountId folder hdate
    cases h1 : message.parts.find? (fun p => p.which == "HEADER") with
    | none => simp [parseEmailMessage, h1]
    | some header =>
      cases h2 : message.parts.find? (fun p => p.which == "TEXT") with
      | none => simp [parseEmailMessage, h1, h2]
      | some textPart =>
        cases hbind : header.body.asHeaders.hDate.bind List.head? with
        | none => simp [hasConcreteDate, h1, hbind] at hdate
        | some s =>
          simp [hasConcreteDate, h1, hbind] at hdate
          simp [parseEmailMessage, h1, h2, dateOrNow, hbind, hdate]

/-- C6 (witness): on a record with a nonempty date header, two invocations
at different wall-clock instants agree exactly. -/
theorem C6_amended_determinism_witness :
    parseEmailMessage (fun _ => 42) 0 datedMsg "acct" "INBOX"
      = parseEmailMessage (fun _ => 42) 99 datedMsg "acct" "INBOX" :=
  C6_amended_determinism.2 (fun _ => 42) 0 99 datedMsg "acct" "INBOX" (by decide)

/-! ## Claim C7: skip on missing required block, defaults for optional fields -/

/-- C7: a record missing the required `HEADER` or `TEXT` block normalizes
to the skip result (`none`, no error); a record whose optional subject
header is absent still yields a Message, with the subject defaulted to the
empty string; and a skipped record does not stop the folder loop — the
Messages pipelined from a fetch batch are exactly those whose
normalization succeeded, in fetch order.  Totality of `parseEmailMessage`
(normalization never throws on malformed optional fields) is structural:
it is a Lean function returning `Option`. -/
theorem C7_normalizer_skip_and_defaults (parseDate : String → Int) (now : Int)
    (message : RawMessage) (accountId folder : String) :
    ((message.parts.find? (fun p => p.which == "HEADER") = none ∨
      message.parts.find? (fun p => p.which == "TEXT") = none) →
      parseEmailMessage parseDate now message accountId folder = none) ∧
    (∀ header textPart,
      message.parts.find? (fun p => p.which == "HEADER") = some header →
      message.parts.find? (fun p => p.which == "TEXT") = some textPart →
      header.body.asHeaders.hSubject = none →
      ∃ m, parseEmailMessage parseDate now message accountId folder = some m ∧
        m.subject = "") ∧
    (∀ (bad good : RawMessage) (m : EmailMessage),
      parseEmailMessage parseDate now bad accountId folder = none →
      parseEmailMessage parseDate now good accountId folder = some m →
      processFolderMessages parseDate now accountId folder [bad, good] = [m]) := by
  refine ⟨?_, ?_, ?_⟩
  · rintro (h | h)
    · cases h2 : message.parts.find? (fun p => p.which == "TEXT") with
      | none => simp [parseEmailMessage, h, h2]
      | some t => simp [parseEmailMessage, h, h2]
    · cases h1 : message.parts.find? (fun p => p.which == "HEADER") with
      | none => simp [parseEmailMessage, h, h1]
      | some hd => simp [parseEmailMessage, h, h1]
  · intro header textPart h1 h2 hsubj
    have hp : parseEmailMessage parseDate now message accountId folder
        = some
          { id := accountId ++ "_" ++ toString message.uid, uid := message.uid
            accountId := accountId, folder := folder
            fromAddr := firstOrEmpty header.body.asHeaders.hFrom
            toAddrs := header.body.asHeaders.hTo.getD []
            cc := header.body.asHeaders.hCc.getD []
            bcc := header.body.asHeaders.hBcc.getD []
            subject := firstOrEmpty header.body.asHeaders.hSubject
            body := textPart.body.asText, htmlBody := message.htmlBody
            date := dateOrNow parseDate now header.body.asHeaders.hDate
            flags := message.flags, attachments := [], aiCategory := none } := by
      simp [parseEmailMessage, h1, h2]
    exact ⟨_, hp, by simp [firstOrEmpty, hsubj]⟩
  · intro bad good m hbad hgood
    simp [processFolderMessages, hbad, hgood]

/-- C7 (witness): the spec's own scenario — a batch with one record
missing its header block and one record merely missing the subject header:
the former is skipped, the latter yields a Message with empty subject, and
the pipelined batch is exactly that Message. -/
theorem C7_normalizer_skip_and_defaults_witness :
    parseEmailMessage (fun _ => 0) 0 headerlessMsg "acct" "INBOX" = none ∧
    (∃ m, parseEmailMessage (fun _ => 0) 0 noSubjectMsg "acct" "INBOX" = some m ∧
      m.subject = "") ∧
    processFolderMessages (fun _ => 0) 0 "acct" "INBOX" [headerlessMsg, noSubjectMsg]
      = [parsedNoSubject] := by
  have h1 := C7_normalizer_skip_and_defaults (fun _ => 0) 0 headerlessMsg "acct" "INBOX"
  have h2 := C7_normalizer_skip_and_defaults (fun _ => 0) 0 noSubjectMsg "acct" "INBOX"
  refine ⟨h1.1 (Or.inl (by decide)), ?_, ?_⟩
  · exact h2.2.1 noSubjectHeaderPart noSubjectTextPart (by decide) (by decide) rfl
  · exact h1.2.2 headerlessMsg noSubjectMsg parsedNoSubject
      (h1.1 (Or.inl (by decide))) (by decide)

/-! ## Claim C8: label set and confidence range of produced Classifications -/

/-- A case-insensitive prefix match pins down the matched slice up to
case. -/
theorem ciStartsWith_take (kw : List Char) : ∀ cs : List Char,
    ciStartsWith kw cs = true → ciEqChars (cs.take kw.length) kw = true := by
  induction kw with
  | nil => intro cs _; simp [ciEqChars]
  | cons k ks ih =>
    intro cs h
    cases cs with
    | nil => simp [ciStartsWith] at h
    | cons c cs2 =>
      simp [ciStartsWith] at h
      obtain ⟨h1, h2⟩ := h
      simp only [List.length_cons, List.take_succ_cons, ciEqChars,
        Bool.and_eq_true, beq_iff_eq]
      exact ⟨h1.symm, ih cs2 h2⟩

/-- Soundness of the fallback keyword scan: a captured slice is
case-insensitively equal to one of the five keywords. -/
theorem matchCategoryAux_sound : ∀ (cs : List Char) (s : String),
    matchCategoryAux cs = some s →
    ∃ kw ∈ categoryKeywords, ciEqChars s.toList kw.toList = true := by
  intro cs
  induction cs with
  | nil => intro s h; simp [matchCategoryAux] at h
  | cons c rest ih =>
    intro s h
    rw [matchCategoryAux] at h
    cases hf : categoryKeywords.find? (fun kw => ciStartsWith kw.toList (c :: rest)) with
    | none =>
      rw [keywordAt, hf] at h
      exact ih s h
    | some kw =>
      rw [keywordAt, hf] at h
      simp at h
      have hmem : kw ∈ categoryKeywords := List.mem_of_find?_eq_some hf
      have hpred : ciStartsWith kw.toList (c :: rest) = true :=
        by simpa using List.find?_some hf
      refine ⟨kw, hmem, ?_⟩
      subst h
      exact ciStartsWith_take kw.toList (c :: rest) hpred

/-- C8 (counterexample): the claim says every Classification produced from
a response string has confidence in the closed interval from 0 to 100 and
a label from the fixed closed set.  The fallback path does not clamp: on
the response text `Interested 150%` the parsed percent 150 is returned
unclamped.  The JSON path does not validate the label: a well-formed JSON
response carrying the label Banana yields that out-of-set label.  And a
JSON response whose confidence is the non-numeric string `very high`
coerces to NaN, which `Math.min`/`Math.max` propagate past the clamp, so
the resulting confidence is no number at all. -/
theorem C8_counterexample :
    (parseAIResponse (fun _ => none) (fun _ => JSNum.num 0)
        "Interested 150%").confidence = JSNum.num 150 ∧
    ¬((150 : Int) ≤ 100) ∧
    (parseAIResponse jpBanana (fun _ => JSNum.num 0) bananaContent).category
      = some ("Banana") ∧
    ¬("Banana" ∈ categoryKeywords) ∧
    (parseAIResponse jpVeryHigh toNumVeryHigh vhContent).confidence = JSNum.nan ∧
    (∀ m : Int, ¬(JSNum.nan = JSNum.num m)) := by
  refine ⟨by decide, by decide, by decide, by decide, by decide, fun m h => by cases h⟩

/-- C8 (amended): on the JSON-extraction path, when the confidence field
(defaulted to 0 if absent or falsy) coerces to a number `m`, the resulting
confidence is `m` clamped into the closed interval from 0 to 100; when it
coerces to NaN — as with a non-numeric string — the resulting confidence
is NaN, outside every interval; the label is whatever string the response
carried, unvalidated.  On the fallback path the label is `Not Interested`
or a case-insensitive occurrence of one of the five keywords (with the
casing of the response text), and the confidence is the first
percent-number of the response — unclamped, possibly exceeding 100 — or
50 when there is none. -/
theorem C8_amended_label_and_range :
    (∀ (jp : String → Option ParsedObj) (toNum : String → JSNum) (content : String)
        (p : ParsedObj),
      (extractJsonCandidate content).bind jp = some p →
      (∀ m : Int, (confidenceOrZero p.confidence).toNumber toNum = JSNum.num m →
        (parseAIResponse jp toNum content).confidence
            = JSNum.num (min 100 (max 0 m)) ∧
        0 ≤ min 100 (max 0 m) ∧ min 100 (max 0 m) ≤ 100) ∧
      ((confidenceOrZero p.confidence).toNumber toNum = JSNum.nan →
        (parseAIResponse jp toNum content).confidence = JSNum.nan)) ∧
    (∀ (jp : String → Option ParsedObj) (toNum : String → JSNum) (content : String),
      (extractJsonCandidate content).bind jp = none →
      (parseAIResponse jp toNum content).category
        = some ((matchCategory content).getD "Not Interested") ∧
      (∀ n : Nat, matchPercent content = some n →
        (parseAIResponse jp toNum content).confidence = JSNum.num (n : Int)) ∧
      (matchPercent content = none →
        (parseAIResponse jp toNum content).confidence = JSNum.num 50)) ∧
    (∀ (content s : String), matchCategory content = some s →
      ∃ kw ∈ categoryKeywords, ciEqChars s.toList kw.toList = true) := by
  refine ⟨?_, ?_, ?_⟩
  · intro jp toNum content p hp
    constructor
    · intro m hm
      refine ⟨by simp [parseAIResponse, hp, hm, jsMax, jsMin], ?_, ?_⟩
      · exact le_min (by norm_num) (le_max_left 0 _)
      · exact min_le_left _ _
    · intro hm
      simp [parseAIResponse, hp, hm, jsMax, jsMin]
  · intro jp toNum content hjson
    refine ⟨by simp [parseAIResponse, hjson], ?_, ?_⟩
    · intro n hn
      simp [parseAIResponse, hjson, hn]
    · intro hpct
      simp [parseAIResponse, hjson, hpct]
  · intro content s h
    exact matchCategoryAux_sound content.toList s h

/-- C8 (witness): a numeric JSON confidence of 150 is clamped to 100; the
non-numeric string confidence yields NaN; the fallback on `save 80% today`
returns the percent-number 80; a keyword-free response falls back to the
`Not Interested` label; the captured slice `SPAM` matches a keyword
case-insensitively. -/
theorem C8_amended_label_and_range_witness :
    (parseAIResponse jpHigh (fun _ => JSNum.nan) "\x7b\x7d").confidence
      = JSNum.num 100 ∧
    (parseAIResponse jpVeryHigh toNumVeryHigh vhContent).confidence = JSNum.nan ∧
    (parseAIResponse (fun _ => none) (fun _ => JSNum.num 0)
        "save 80% today").confidence = JSNum.num 80 ∧
    (parseAIResponse (fun _ => none) (fun _ => JSNum.num 0)
        "nothing to see").category = some ("Not Interested") ∧
    (∃ kw ∈ categoryKeywords, ciEqChars (String.toList "SPAM") kw.toList = true) := by
  refine ⟨?_, ?_, ?_, ?_, ?_⟩
  · have h := ((C8_amended_label_and_range.1 jpHigh (fun _ => JSNum.nan) "\x7b\x7d"
      { category := some ("Interested"), confidence := some (.num 150), reasoning := none }
      (by decide)).1 150 (by decide)).1
    rw [h]
    norm_num
  · exact (C8_amended_label_and_range.1 jpVeryHigh toNumVeryHigh vhContent
      { category := some ("Interested"), confidence := some (.str "very high")
        reasoning := none } (by decide)).2 (by decide)
  · exact (C8_amended_label_and_range.2.1 (fun _ => none) (fun _ => JSNum.num 0)
      "save 80% today" (by decide)).2.1 80 (by decide)
  · have h := (C8_amended_label_and_range.2.1 (fun _ => none) (fun _ => JSNum.num 0)
      "nothing to see" (by decide)).1
    rw [show matchCategory "nothing to see" = none from by decide] at h
    simpa using h
  · exact C8_amended_label_and_range.2.2 "totally SPAMMY mail" "SPAM" (by decide)

/-! ## Claim C10: totality and default of the classifier-response parser -/

/-- C10 (counterexample): the claim says that an input with neither an
extractable JSON object nor any category keyword yields the default
`Not Interested` with confidence 50.  The fallback also scans for a
percent-number: on `save 80% today` — no JSON, no keyword — the label is
the default but the confidence is 80, not 50. -/
theorem C10_counterexample :
    extractJsonCandidate "save 80% today" = none ∧
    matchCategory "save 80% today" = none ∧
    (parseAIResponse (fun _ => none) (fun _ => JSNum.num 0)
        "save 80% today").category = some ("Not Interested") ∧
    (parseAIResponse (fun _ => none) (fun _ => JSNum.num 0)
        "save 80% today").confidence = JSNum.num 80 ∧
    ¬((parseAIResponse (fun _ => none) (fun _ => JSNum.num 0)
        "save 80% today").confidence = JSNum.num 50) := by
  refine ⟨by decide, by decide, by decide, by decide, by decide⟩

/-- C10 (amended): the parser is total by construction — it returns a
Classification for every input string — and on an input with no
extractable JSON object, no category keyword, and no percent-number it
returns exactly the default `Not Interested` with confidence 50 and the
fallback rationale. -/
theorem C10_amended_default (jp : String → Option ParsedObj) (toNum : String → JSNum)
    (content : String)
    (hjson : (extractJsonCandidate content).bind jp = none)
    (hcat : matchCategory content = none)
    (hpct : matchPercent content = none) :
    parseAIResponse jp toNum content =
      { category := some ("Not Interested"), confidence := .num 50
        reasoning := some ("Fallback categorization due to parsing error") } := by
  simp [parseAIResponse, hjson, hcat, hpct]

/-- C10 (witness): a keyword-free, percent-free, JSON-free reply yields
the default Classification. -/
theorem C10_amended_default_witness :
    parseAIResponse (fun _ => none) (fun _ => JSNum.num 0) "wholly inscrutable reply" =
      { category := some ("Not Interested"), confidence := .num 50
        reasoning := some ("Fallback categorization due to parsing error") } :=
  C10_amended_default (fun _ => none) (fun _ => JSNum.num 0) "wholly inscrutable reply"
    (by decide) (by decide) (by decide)

/-! ## Claim C9: webhook retry policy -/

/-- The retry loop makes at most as many attempts as it has iterations
left. -/
theorem retryLoop_attempts_le (outcome : Nat → Bool) (retries : Nat) :
    ∀ (fuel attempt : Nat), (retryLoop outcome retries attempt fuel).attempts ≤ fuel := by
  intro fuel
  induction fuel with
  | zero => intro attempt; simp [retryLoop]
  | succ f ih =>
    intro attempt
    rw [retryLoop]
    split
    · simp
    · dsimp only
      exact Nat.succ_le_succ (ih (attempt + 1))

/-- With at least one iteration left, the loop posts at least once. -/
theorem retryLoop_attempts_pos (outcome : Nat → Bool) (retries f attempt : Nat) :
    1 ≤ (retryLoop outcome retries attempt (f + 1)).attempts := by
  rw [retryLoop]
  split
  · simp
  · dsimp only
    omega

/-- If the loop reports success at attempt `k`, then attempt `k`'s post
resolved, every earlier attempt in the run failed, and the loop stopped
right there. -/
theorem retryLoop_success (outcome : Nat → Bool) (retries : Nat) :
    ∀ (fuel attempt k : Nat),
      (retryLoop outcome retries attempt fuel).successAt = some k →
      outcome k = true ∧ attempt ≤ k ∧ k < attempt + fuel ∧
      (∀ j, attempt ≤ j → j < k → outcome j = false) ∧
      (retryLoop outcome retries attempt fuel).attempts = k + 1 - attempt := by
  intro fuel
  induction fuel with
  | zero => intro attempt k h; simp [retryLoop] at h
  | succ f ih =>
    intro attempt k h
    rw [retryLoop] at h ⊢
    by_cases ho : outcome attempt = true
    · rw [if_pos ho] at h ⊢
      simp only [Option.some.injEq] at h
      subst h
      exact ⟨ho, Nat.le_refl _, by omega, fun j hj1 hj2 => absurd hj1 (by omega), by simp⟩
    · rw [if_neg ho] at h ⊢
      dsimp only at h ⊢
      obtain ⟨h1, h2, h3, h4, h5⟩ := ih (attempt + 1) k h
      refine ⟨h1, by omega, by omega, ?_, by omega⟩
      intro j hj1 hj2
      rcases Nat.eq_or_lt_of_le hj1 with hj | hj
      · subst hj
        exact Bool.not_eq_true _ ▸ (by simpa using ho)
      · exact h4 j (by omega) hj2

/-- If the loop reports no success, it exhausted all its iterations and
every attempt in the run failed (whereupon `sendWithRetry` throws). -/
theorem retryLoop_none (outcome : Nat → Bool) (retries : Nat) :
    ∀ (fuel attempt : Nat),
      (retryLoop outcome retries attempt fuel).successAt = none →
      (retryLoop outcome retries attempt fuel).attempts = fuel ∧
      (∀ j, attempt ≤ j → j < attempt + fuel → outcome j = false) := by
  intro fuel
  induction fuel with
  | zero =>
    intro attempt h
    exact ⟨rfl, fun j hj1 hj2 => absurd hj1 (by omega)⟩
  | succ f ih =>
    intro attempt h
    rw [retryLoop] at h ⊢
    by_cases ho : outcome attempt = true
    · rw [if_pos ho] at h
      simp at h
    · rw [if_neg ho] at h ⊢
      dsimp only at h ⊢
      obtain ⟨h1, h2⟩ := ih (attempt + 1) h
      refine ⟨by omega, ?_⟩
      intro j hj1 hj2
      rcases Nat.eq_or_lt_of_le hj1 with hj | hj
      · subst hj
        simpa using ho
      · exact h2 j (by omega) (by omega)

/-- The waits performed are exactly `2 ^ a * 1000` milliseconds for each
attempt `a` that failed with further attempts remaining — that is, for
every attempt of the run except the last one. -/
theorem retryLoop_delays (outcome : Nat → Bool) (retries : Nat) :
    ∀ (fuel attempt : Nat), attempt + fuel = retries + 1 →
      (retryLoop outcome retries attempt fuel).delaysMs
        = (List.range' attempt ((retryLoop outcome retries attempt fuel).attempts - 1)).map
            (fun a => 2 ^ a * 1000) := by
  intro fuel
  induction fuel with
  | zero => intro attempt _; simp [retryLoop]
  | succ f ih =>
    intro attempt hsum
    rw [retryLoop]
    by_cases ho : outcome attempt = true
    · rw [if_pos ho]
      simp
    · rw [if_neg ho]
      dsimp only
      cases f with
      | zero =>
        have hnr : ¬(attempt < retries) := by omega
        rw [if_neg hnr]
        simp [retryLoop]
      | succ g =>
        have hr : attempt < retries := by omega
        rw [if_pos hr]
        have hpos := retryLoop_attempts_pos outcome retries g (attempt + 1)
        have hrec := ih (attempt + 1) (by omega)
        rw [hrec]
        have hsplit : (retryLoop outcome retries (attempt + 1) (g + 1)).attempts + 1 - 1
            = ((retryLoop outcome retries (attempt + 1) (g + 1)).attempts - 1) + 1 := by
          omega
        rw [hsplit, List.range'_succ, List.map_cons]
        rfl

/-- C9: `sendWebhook` makes at most `retries` delivery attempts, stops at
the first success, waits `2 ^ attempt * 1000` milliseconds (that is,
`2 ^ attempt` seconds) after each failed non-final attempt, and — having
caught whatever `sendWithRetry` throws — always returns normally to the
pipeline caller (structurally: its Lean type carries no error component). -/
theorem C9_webhook_retry (urlConfigured : Bool) (retries : Nat) (outcome : Nat → Bool) :
    (sendWebhook urlConfigured retries outcome).attempts ≤ retries ∧
    (∀ k, (sendWebhook urlConfigured retries outcome).successAt = some k →
      outcome k = true ∧ 1 ≤ k ∧ k ≤ retries ∧
      (∀ j, 1 ≤ j → j < k → outcome j = false) ∧
      (sendWebhook urlConfigured retries outcome).attempts = k) ∧
    ((sendWebhook urlConfigured retries outcome).successAt = none → urlConfigured = true →
      (sendWebhook urlConfigured retries outcome).attempts = retries ∧
      ∀ j, 1 ≤ j → j ≤ retries → outcome j = false) ∧
    (sendWebhook urlConfigured retries outcome).delaysMs
      = (List.range' 1 ((sendWebhook urlConfigured retries outcome).attempts - 1)).map
          (fun a => 2 ^ a * 1000) := by
  cases urlConfigured with
  | false =>
    refine ⟨by simp [sendWebhook], ?_, ?_, ?_⟩
    · intro k h
      simp [sendWebhook] at h
    · intro _ hcon
      exact absurd hcon (by simp)
    · simp [sendWebhook, List.range']
  | true =>
    have e : sendWebhook true retries outcome = retryLoop outcome retries 1 retries := rfl
    rw [e]
    refine ⟨retryLoop_attempts_le outcome retries retries 1, ?_, ?_, ?_⟩
    · intro k h
      obtain ⟨h1, h2, h3, h4, h5⟩ := retryLoop_success outcome retries retries 1 k h
      exact ⟨h1, h2, by omega, h4, by omega⟩
    · intro h _
      obtain ⟨h1, h2⟩ := retryLoop_none outcome retries retries 1 h
      exact ⟨h1, fun j hj1 hj2 => h2 j hj1 (by omega)⟩
    · exact retryLoop_delays outcome retries retries 1 (by omega)

/-- C9 (witness): with 3 configured retries and the post resolving on
attempt 2, the run makes exactly 2 attempts, attempt 1 failed, and the
single wait is 2 seconds. -/
theorem C9_webhook_retry_witness :
    (sendWebhook true 3 (fun a => decide (a = 2))).attempts = 2 ∧
    (fun a : Nat => decide (a = 2)) 1 = false ∧
    (sendWebhook true 3 (fun a => decide (a = 2))).delaysMs
      = (List.range' 1 (2 - 1)).map (fun a => 2 ^ a * 1000) := by
  have h := C9_webhook_retry true 3 (fun a => decide (a = 2))
  have hs := h.2.1 2 (by decide)
  refine ⟨hs.2.2.2.2, hs.2.2.2.1 1 (by decide) (by decide), ?_⟩
  rw [h.2.2.2, hs.2.2.2.2]

end EmailMgmt
